import Mathlib

/-!
# Verification of the gohighlevel-go OAuth client core

Shallow embedding of `client.go` (package `gohighlevel`): the token store
(`refreshTokenInternal`, `fetchToken`, `AuthorizeWithCode`,
`AuthorizeWithRefreshToken`) and the authenticated request executor
(`executeRequest`, `doRequest`), plus the JSON marshalling of
`CreateContactRequest` from `contacts.go`.

Network and JSON-parsing effects of the Go standard library are modelled as
oracle parameters: each HTTP exchange is represented by an outcome value
describing what the transport did (connection failure, body-read failure, or a
completed response), and `json.Unmarshal` of an externally supplied body is
represented by an `Option`-valued parse result supplied with the outcome.
Wall-clock time (`time.Now()`) is passed explicitly as `now`.
-/

namespace GoHighLevel

/-- A JSON value, the image of Go's `encoding/json` marshalling.
`json.Marshal` of the repository's request structs is modelled by explicit
marshal functions producing this type. -/
inductive Json where
  | str (s : String)
  | num (n : Int)
  | jbool (b : Bool)
  | null
  | arr (elems : List Json)
  | obj (fields : List (String × Json))
deriving Repr

/-- The parsed body of the OAuth token endpoint response (the anonymous struct
in `refreshTokenInternal` and `fetchToken`): fields `access_token`,
`refresh_token`, `token_type`, `expires_in`, `scope`. -/
structure TokenResp where
  access_token : String
  refresh_token : String
  token_type : String
  expires_in : Int
  scope : String
deriving Repr, DecidableEq

/-- The mutable and configuration state of `Client` that the request/refresh
logic reads and writes: base URL, OAuth client credentials, the token triple,
the auto-refresh flag, and whether an `onTokenRefresh` callback is registered.
`tokenExpiry` is a point in model time (an integer). -/
structure ClientState where
  baseURL : String
  clientID : String
  clientSecret : String
  accessToken : String
  refreshToken : String
  tokenExpiry : Int
  autoRefreshOn401 : Bool
  hasCallback : Bool
deriving Repr, DecidableEq

/-- Outcome of one API HTTP exchange, as observed by `executeRequest`:
`connectFail` is `HTTPClient.Do` returning an error; `readFail s` is a
completed response with status `s` whose body read (`io.ReadAll`) fails;
`ok s b` is a completed response with status `s` and body `b`. -/
inductive NetOutcome where
  | connectFail
  | readFail (status : Nat)
  | ok (status : Nat) (body : String)
deriving Repr, DecidableEq

/-- The error cases `executeRequest` can return: no access token, request
execution failure (`"request failed: %w"`), or response body read failure
(`"failed to read response: %w"`). -/
inductive ExecError where
  | noToken
  | requestFailed
  | readFailed
deriving Repr, DecidableEq

/-- The outgoing HTTP request built by `executeRequest`: method, full URL, the
three headers it sets, and the (already marshalled) JSON body if any. -/
structure HttpRequest where
  method : String
  url : String
  authorization : String
  accept : String
  contentType : Option String
  body : Option Json
deriving Repr

/-- The value of `executeRequest`'s Go return triple `(int, []byte, error)`,
together with bookkeeping the proofs need: whether an underlying HTTP request
was issued (`HTTPClient.Do` was invoked) and, if so, the request that was
built. `body = none` models a nil byte slice. -/
structure ExecResult where
  status : Nat
  body : Option String
  err : Option ExecError
  issued : Bool
  req : Option HttpRequest
deriving Repr

/-- `executeRequest` (client.go:346-390): read the token under the lock, fail
with the no-token error if it is empty, otherwise marshal the body (marshal of
the repository's body types cannot fail, so the body arrives pre-marshalled as
`Option Json`), build the request with `Authorization: Bearer <token>`,
`Accept: application/json` and `Content-Type: application/json` when a body is
present, and perform the exchange described by `net`. -/
def executeRequest (c : ClientState) (method path : String) (body : Option Json)
    (net : NetOutcome) : ExecResult :=
  if c.accessToken = "" then
    ⟨0, none, some .noToken, false, none⟩
  else
    let req : HttpRequest :=
      { method := method
        url := c.baseURL ++ path
        authorization := "Bearer " ++ c.accessToken
        accept := "application/json"
        contentType := if body.isSome then some "application/json" else none
        body := body }
    match net with
    | .connectFail => ⟨0, none, some .requestFailed, true, some req⟩
    | .readFail s => ⟨s, none, some .readFailed, true, some req⟩
    | .ok s b => ⟨s, some b, none, true, some req⟩

/-- Outcome of one OAuth token-endpoint HTTP exchange: connection failure,
body-read failure, or a completed response with status, raw body, and the
result of `json.Unmarshal` of that body into `TokenResp` (`none` models a
parse failure). -/
inductive TokenNet where
  | connectFail
  | readFail
  | resp (status : Nat) (rawBody : String) (parsed : Option TokenResp)
deriving Repr, DecidableEq

/-- The error cases of `refreshTokenInternal` / `fetchToken`: missing client
credentials, token fetch failure, token response read failure, non-200 status
(with status and raw body), or JSON parse failure. -/
inductive RefreshError where
  | credsRequired
  | fetchFailed
  | readFailed
  | badStatus (status : Nat) (body : String)
  | parseFailed
deriving Repr, DecidableEq

/-- Result of a token-fetching operation: `result = none` means success; the
(possibly updated) client state; whether a token-endpoint HTTP request was
issued; and the list of refresh-callback invocations (each with the arguments
`(accessToken, refreshToken, expiresIn)` passed to `onTokenRefresh`). -/
structure RefreshOutcome where
  result : Option RefreshError
  state : ClientState
  httpIssued : Bool
  callbacks : List (String × String × Int)
deriving Repr

/-- The token-state update shared by `refreshTokenInternal` (client.go:234-241)
and `fetchToken` (client.go:289-295): overwrite access and refresh tokens, and
set `tokenExpiry` to `time.Now().Add(expiresIn seconds)` only when
`ExpiresIn > 0`. -/
def applyTokenResp (c : ClientState) (tr : TokenResp) (now : Int) : ClientState :=
  { c with
    accessToken := tr.access_token
    refreshToken := tr.refresh_token
    tokenExpiry := if tr.expires_in > 0 then now + tr.expires_in else c.tokenExpiry }

/-- `refreshTokenInternal` (client.go:187-249): requires client credentials,
POSTs the refresh grant to the token endpoint, reads and parses the response,
updates the token state on success, and then invokes the registered callback
(if any) with the new tokens. -/
def refreshTokenInternal (c : ClientState) (refreshToken : String) (now : Int)
    (net : TokenNet) : RefreshOutcome :=
  if c.clientID = "" ∨ c.clientSecret = "" then
    ⟨some .credsRequired, c, false, []⟩
  else
    match net with
    | .connectFail => ⟨some .fetchFailed, c, true, []⟩
    | .readFail => ⟨some .readFailed, c, true, []⟩
    | .resp s raw parsed =>
      if s ≠ 200 then ⟨some (.badStatus s raw), c, true, []⟩
      else
        match parsed with
        | none => ⟨some .parseFailed, c, true, []⟩
        | some tr =>
          ⟨none, applyTokenResp c tr now,
           true,
           if c.hasCallback then [(tr.access_token, tr.refresh_token, tr.expires_in)] else []⟩

/-- `fetchToken` (client.go:252-298): the manual-exchange token fetch. Same
endpoint interaction and token update as `refreshTokenInternal`, but no
credential precheck (its callers do that) and no callback invocation.
The form data it posts does not influence the modelled behaviour, which is
determined by the oracle response `net`. -/
def fetchToken (c : ClientState) (now : Int) (net : TokenNet) : RefreshOutcome :=
  match net with
  | .connectFail => ⟨some .fetchFailed, c, true, []⟩
  | .readFail => ⟨some .readFailed, c, true, []⟩
  | .resp s raw parsed =>
    if s ≠ 200 then ⟨some (.badStatus s raw), c, true, []⟩
    else
      match parsed with
      | none => ⟨some .parseFailed, c, true, []⟩
      | some tr => ⟨none, applyTokenResp c tr now, true, []⟩

/-- `AuthorizeWithCode` (client.go:112-126): fails when client credentials are
missing, otherwise delegates to `fetchToken` with the authorization-code
grant. -/
def AuthorizeWithCode (c : ClientState) (code redirectURI : String) (now : Int)
    (net : TokenNet) : RefreshOutcome :=
  if c.clientID = "" ∨ c.clientSecret = "" then
    ⟨some .credsRequired, c, false, []⟩
  else
    fetchToken c now net

/-- `AuthorizeWithRefreshToken` (client.go:130-141): fails when client
credentials are missing, otherwise delegates to `fetchToken` with the
refresh-token grant. -/
def AuthorizeWithRefreshToken (c : ClientState) (refreshToken : String) (now : Int)
    (net : TokenNet) : RefreshOutcome :=
  if c.clientID = "" ∨ c.clientSecret = "" then
    ⟨some .credsRequired, c, false, []⟩
  else
    fetchToken c now net

/-- One field of a marshalled Go struct whose tag carries `omitempty` and whose
type is `string`: omitted exactly when the value is the zero string. -/
def strField (name : String) (s : String) : List (String × Json) :=
  if s = "" then [] else [(name, .str s)]

/-- One field of a marshalled Go struct whose tag carries `omitempty` and whose
type is `[]string`: omitted exactly when the slice is empty (Go's `omitempty`
omits zero-length slices, nil or not). -/
def listStrField (name : String) (xs : List String) : List (String × Json) :=
  if xs.isEmpty then [] else [(name, .arr (xs.map .str))]

/-- A `CustomField` (contacts.go): `id` and `key` strings and an untyped
`field_value`, all tagged `omitempty`. The `interface{}` value is modelled as
an optional JSON value, `none` being Go's nil interface. -/
structure CustomField where
  ID : String
  Key : String
  Value : Option Json
deriving Repr

/-- `json.Marshal` of a `CustomField`, following its struct tags. -/
def CustomField.marshal (cf : CustomField) : Json :=
  .obj (strField "id" cf.ID ++ strField "key" cf.Key ++
    (match cf.Value with
     | none => []
     | some v => [("field_value", v)]))

/-- An `AttributionSource` (contacts.go): seventeen string fields, all tagged
`omitempty`. -/
structure AttributionSource where
  Campaign : String
  CampaignID : String
  Medium : String
  MediumID : String
  Source : String
  Referrer : String
  AdGroup : String
  AdGroupID : String
  FBCLId : String
  GCLId : String
  MSCLKId : String
  DCLID : String
  FBC : String
  FBP : String
  UserAgent : String
  GAPClientID : String
  GoogleAnalyticsID : String
deriving Repr

/-- `json.Marshal` of an `AttributionSource`, following its struct tags, in
field declaration order. -/
def AttributionSource.marshal (a : AttributionSource) : Json :=
  .obj (strField "campaign" a.Campaign ++ strField "campaignId" a.CampaignID ++
    strField "medium" a.Medium ++ strField "mediumId" a.MediumID ++
    strField "source" a.Source ++ strField "referrer" a.Referrer ++
    strField "adGroup" a.AdGroup ++ strField "adGroupId" a.AdGroupID ++
    strField "fbclid" a.FBCLId ++ strField "gclid" a.GCLId ++
    strField "msclkid" a.MSCLKId ++ strField "dclid" a.DCLID ++
    strField "fbc" a.FBC ++ strField "fbp" a.FBP ++
    strField "userAgent" a.UserAgent ++ strField "gapClientId" a.GAPClientID ++
    strField "googleAnalyticsId" a.GoogleAnalyticsID)

/-- A `CreateContactRequest` (contacts.go): every field is tagged `omitempty`
except `locationId`, which is always serialized. -/
structure CreateContactRequest where
  FirstName : String
  LastName : String
  Name : String
  Email : String
  LocationID : String
  Phone : String
  Address1 : String
  City : String
  State : String
  PostalCode : String
  Country : String
  CompanyName : String
  Website : String
  Source : String
  Tags : List String
  CustomFields : List CustomField
  AttributionSource : Option AttributionSource
deriving Repr

/-- The `customField` entry of a marshalled contact request: a `[]CustomField`
slice tagged `omitempty`, omitted exactly when empty. -/
def customFieldBlock (cfs : List CustomField) : List (String × Json) :=
  if cfs.isEmpty then []
  else [("customField", .arr (cfs.map CustomField.marshal))]

/-- The `attributionSource` entry of a marshalled contact request: a pointer
field tagged `omitempty`, omitted exactly when nil. -/
def attributionSourceBlock : Option AttributionSource → List (String × Json)
  | none => []
  | some a => [("attributionSource", a.marshal)]

/-- The field list of `json.Marshal` of a `CreateContactRequest`, following
its struct tags, in field declaration order. -/
def CreateContactRequest.marshalFields (r : CreateContactRequest) : List (String × Json) :=
  strField "firstName" r.FirstName ++ strField "lastName" r.LastName ++
    strField "name" r.Name ++ strField "email" r.Email ++
    [("locationId", .str r.LocationID)] ++
    strField "phone" r.Phone ++ strField "address1" r.Address1 ++
    strField "city" r.City ++ strField "state" r.State ++
    strField "postalCode" r.PostalCode ++ strField "country" r.Country ++
    strField "companyName" r.CompanyName ++ strField "website" r.Website ++
    strField "source" r.Source ++
    listStrField "tags" r.Tags ++
    customFieldBlock r.CustomFields ++
    attributionSourceBlock r.AttributionSource

/-- `json.Marshal` of a `CreateContactRequest`. -/
def CreateContactRequest.marshal (r : CreateContactRequest) : Json :=
  .obj r.marshalFields

/-- The error cases `doRequest` can return: an error propagated from
`executeRequest` (client.go:329), the composite 401-plus-refresh-failure error
(client.go:319), a non-2xx final status (client.go:333), or a response-parse
failure (client.go:338). -/
inductive DoError where
  | execErr (e : ExecError)
  | refreshFailed (status : Nat) (body : String) (re : RefreshError)
  | apiStatus (status : Nat) (body : String)
  | parseResponse
deriving Repr, DecidableEq

/-- Result of one `doRequest` call: the Go error (`none` = success), whether
the response body was deserialized into the caller's result target, the final
client state, the number of underlying API HTTP requests issued, the number of
token-endpoint HTTP requests issued, the number of `refreshTokenInternal`
invocations, the callback invocations, and the API requests built and issued,
in order. -/
structure DoOutcome where
  result : Option DoError
  deserialized : Bool
  state : ClientState
  apiRequests : Nat
  refreshHTTP : Nat
  refreshAttempts : Nat
  callbacks : List (String × String × Int)
  requests : List HttpRequest
deriving Repr

/-- The tail of `doRequest` (client.go:327-342) applied to the final
`executeRequest` result: propagate its error, turn a non-2xx status into the
API error, and otherwise deserialize into the result target when one was
supplied and the body is non-empty (`resultParse` models whether
`json.Unmarshal` of that body into the target succeeds). Returns the Go error
and whether deserialization happened. -/
def finishRequest (r : ExecResult) (hasResult : Bool) (resultParse : String → Bool) :
    Option DoError × Bool :=
  match r.err with
  | some e => (some (.execErr e), false)
  | none =>
    if r.status < 200 ∨ r.status ≥ 300 then
      (some (.apiStatus r.status ((r.body).getD "")), false)
    else if hasResult = true ∧ ((r.body).getD "").length > 0 then
      if resultParse ((r.body).getD "") then (none, true) else (some .parseResponse, false)
    else
      (none, false)

/-- `doRequest` (client.go:301-343): perform the first attempt; if its status
is 401 and auto-refresh is enabled and a refresh token and client credentials
are present, refresh the token — returning the composite error if the refresh
fails, otherwise retrying the request once — and finally handle the last
response. `net1` is the network's behaviour for the first API exchange,
`tokNet` for the token-endpoint exchange (consulted only if a refresh is
attempted), `net2` for the retried API exchange (consulted only if a retry
happens). -/
def doRequest (c : ClientState) (method path : String) (body : Option Json)
    (hasResult : Bool) (resultParse : String → Bool)
    (net1 : NetOutcome) (now : Int) (tokNet : TokenNet) (net2 : NetOutcome) : DoOutcome :=
  let r1 := executeRequest c method path body net1
  let n1 : Nat := if r1.issued then 1 else 0
  if r1.status = 401 ∧ c.autoRefreshOn401 = true then
    if c.refreshToken ≠ "" ∧ (c.clientID ≠ "" ∧ c.clientSecret ≠ "") then
      let ro := refreshTokenInternal c c.refreshToken now tokNet
      match ro.result with
      | some re =>
        { result := some (.refreshFailed r1.status ((r1.body).getD "") re)
          deserialized := false
          state := ro.state
          apiRequests := n1
          refreshHTTP := if ro.httpIssued then 1 else 0
          refreshAttempts := 1
          callbacks := ro.callbacks
          requests := (r1.req).toList }
      | none =>
        let r2 := executeRequest ro.state method path body net2
        let fin := finishRequest r2 hasResult resultParse
        { result := fin.1
          deserialized := fin.2
          state := ro.state
          apiRequests := n1 + (if r2.issued then 1 else 0)
          refreshHTTP := if ro.httpIssued then 1 else 0
          refreshAttempts := 1
          callbacks := ro.callbacks
          requests := (r1.req).toList ++ (r2.req).toList }
    else
      let fin := finishRequest r1 hasResult resultParse
      { result := fin.1, deserialized := fin.2, state := c, apiRequests := n1,
        refreshHTTP := 0, refreshAttempts := 0, callbacks := [],
        requests := (r1.req).toList }
  else
    let fin := finishRequest r1 hasResult resultParse
    { result := fin.1, deserialized := fin.2, state := c, apiRequests := n1,
      refreshHTTP := 0, refreshAttempts := 0, callbacks := [],
      requests := (r1.req).toList }

/-- The message text of an `executeRequest` error (the static part of the
wrapped `fmt.Errorf` strings in client.go:352, 378, 386). -/
def ExecError.message : ExecError → String
  | .noToken => "no access token available, please authorize first"
  | .requestFailed => "request failed"
  | .readFailed => "failed to read response"

/-- The message text of a token-fetch error (the static part of the wrapped
`fmt.Errorf` strings in client.go:189, 207, 215, 219, 231). -/
def RefreshError.message : RefreshError → String
  | .credsRequired => "clientID and clientSecret are required for token refresh"
  | .fetchFailed => "failed to fetch token"
  | .readFailed => "failed to read token response"
  | .badStatus s b => "token request failed with status " ++ toString s ++ ": " ++ b
  | .parseFailed => "failed to parse token response"

/-- The message text of a `doRequest` error (client.go:319, 329, 333, 338). -/
def DoError.message : DoError → String
  | .execErr e => e.message
  | .refreshFailed s b re =>
    "API request failed with status " ++ toString s ++ ": " ++ b ++
      " (token refresh failed: " ++ re.message ++ ")"
  | .apiStatus s b => "API request failed with status " ++ toString s ++ ": " ++ b
  | .parseResponse => "failed to parse response"

/-! ## Example states used by concrete witnesses and counterexamples -/

/-- A client state with a full set of credentials, auto-refresh enabled, and a
registered refresh callback. -/
def exState : ClientState :=
  { baseURL := "https://api.example"
    clientID := "id1"
    clientSecret := "sec1"
    accessToken := "t1"
    refreshToken := "r1"
    tokenExpiry := 5
    autoRefreshOn401 := true
    hasCallback := true }

/-- A well-formed token-endpoint response carrying a fresh token pair. -/
def exTokenResp : TokenResp :=
  { access_token := "t2", refresh_token := "r2", token_type := "Bearer"
    expires_in := 3600, scope := "contacts" }

/-! ## Helper lemmas -/

/-- With a non-empty access token, `executeRequest` always issues the HTTP
request, and the request it builds carries the bearer token and the two or
three headers. -/
lemma executeRequest_req_of_token (c : ClientState) (method path : String)
    (body : Option Json) (net : NetOutcome) (h : c.accessToken ≠ "") :
    (executeRequest c method path body net).issued = true ∧
    (executeRequest c method path body net).req = some
      { method := method, url := c.baseURL ++ path
        authorization := "Bearer " ++ c.accessToken
        accept := "application/json"
        contentType := if body.isSome then some "application/json" else none
        body := body } := by
  cases net <;> simp [executeRequest, h]

/-- In the 401-with-eligible-refresh scenario where the token endpoint answers
200 with a parseable body whose access token is non-empty, `doRequest` reduces
to: token state updated, exactly one refresh, two API requests (the second
bearing the new token), and the outcome of the retried exchange handled by
`finishRequest`. -/
lemma doRequest_eq_of_401_refresh_ok
    (c : ClientState) (method path : String) (body : Option Json)
    (hasResult : Bool) (rp : String → Bool) (b1 : String) (now : Int)
    (raw : String) (tr : TokenResp) (net2 : NetOutcome)
    (htok : c.accessToken ≠ "") (hauto : c.autoRefreshOn401 = true)
    (hrt : c.refreshToken ≠ "") (hcid : c.clientID ≠ "") (hcs : c.clientSecret ≠ "")
    (htr : tr.access_token ≠ "") :
    doRequest c method path body hasResult rp (.ok 401 b1) now
      (.resp 200 raw (some tr)) net2 =
    { result := (finishRequest (executeRequest (applyTokenResp c tr now)
        method path body net2) hasResult rp).1
      deserialized := (finishRequest (executeRequest (applyTokenResp c tr now)
        method path body net2) hasResult rp).2
      state := applyTokenResp c tr now
      apiRequests := 2
      refreshHTTP := 1
      refreshAttempts := 1
      callbacks := if c.hasCallback then
        [(tr.access_token, tr.refresh_token, tr.expires_in)] else []
      requests := [
        { method := method, url := c.baseURL ++ path
          authorization := "Bearer " ++ c.accessToken
          accept := "application/json"
          contentType := if body.isSome then some "application/json" else none
          body := body },
        { method := method, url := c.baseURL ++ path
          authorization := "Bearer " ++ tr.access_token
          accept := "application/json"
          contentType := if body.isSome then some "application/json" else none
          body := body }] } := by
  cases net2 <;>
    simp [doRequest, executeRequest, refreshTokenInternal, applyTokenResp,
      htok, hauto, hrt, hcid, hcs, htr]

/-- `finishRequest` on a completed 2xx response: success, deserializing exactly
when a result target was supplied, the body is non-empty, and it parses. -/
lemma finishRequest_2xx (c : ClientState) (method path : String)
    (body : Option Json) (hasResult : Bool) (rp : String → Bool)
    (s : Nat) (b : String) (h : c.accessToken ≠ "") (h200 : 200 ≤ s) (h300 : s < 300) :
    finishRequest (executeRequest c method path body (.ok s b)) hasResult rp =
      if hasResult = true ∧ b.length > 0 then
        (if rp b then (none, true) else (some .parseResponse, false))
      else (none, false) := by
  have hlt : ¬(s < 200) := Nat.not_lt.mpr h200
  have hge : ¬(s ≥ 300) := Nat.not_le.mpr h300
  simp [executeRequest, finishRequest, h, hlt, hge]

/-- A failed `refreshTokenInternal` leaves the client state unchanged and
invokes no callback. -/
lemma refreshTokenInternal_failure (c : ClientState) (rt : String) (now : Int)
    (net : TokenNet) (re : RefreshError)
    (h : (refreshTokenInternal c rt now net).result = some re) :
    (refreshTokenInternal c rt now net).state = c ∧
    (refreshTokenInternal c rt now net).callbacks = [] := by
  unfold refreshTokenInternal at h ⊢
  by_cases hc : c.clientID = "" ∨ c.clientSecret = ""
  · simp [hc]
  · simp only [if_neg hc] at h ⊢
    cases net with
    | connectFail => simp
    | readFail => simp
    | resp s raw parsed =>
      by_cases hs : s ≠ 200
      · simp [hs]
      · cases parsed with
        | none => simp [hs]
        | some tr => simp [hs] at h

/-- A failed `fetchToken` leaves the client state unchanged. -/
lemma fetchToken_failure (c : ClientState) (now : Int) (net : TokenNet)
    (re : RefreshError) (h : (fetchToken c now net).result = some re) :
    (fetchToken c now net).state = c := by
  unfold fetchToken at h ⊢
  cases net with
  | connectFail => simp
  | readFail => simp
  | resp s raw parsed =>
    by_cases hs : s ≠ 200
    · simp [hs]
    · cases parsed with
      | none => simp [hs]
      | some tr => simp [hs] at h

/-! ## Claims -/

/-- Claim C1, counterexample. The claim states that whenever the first request
returns 401 with auto-refresh enabled and refresh credentials present, "the
API request is repeated exactly once with the new token" and that a 2xx retry
yields success with the body deserialized. Two concrete runs refute it:
(a) the token endpoint answers 200 with a body parsing to an empty
`access_token` (e.g. `\x7b\x7d`): the refresh succeeds, but the retried attempt finds
an empty access token and issues no second HTTP request, so only one API
request is ever made and the call fails with the no-token error; (b) the
retried request returns 200 with a body that does not unmarshal into the
result target: `doRequest` fails with the parse error instead of succeeding. -/
theorem doRequest_401_refresh_retry_claim_false :
    ((doRequest exState "GET" "/contacts/1" none true (fun _ => true)
        (.ok 401 "unauthorized") 100
        (.resp 200 "ok" (some ⟨"", "", "", 0, ""⟩)) (.ok 200 "fine")).refreshAttempts = 1 ∧
      (doRequest exState "GET" "/contacts/1" none true (fun _ => true)
        (.ok 401 "unauthorized") 100
        (.resp 200 "ok" (some ⟨"", "", "", 0, ""⟩)) (.ok 200 "fine")).apiRequests = 1 ∧
      (doRequest exState "GET" "/contacts/1" none true (fun _ => true)
        (.ok 401 "unauthorized") 100
        (.resp 200 "ok" (some ⟨"", "", "", 0, ""⟩)) (.ok 200 "fine")).result =
        some (.execErr .noToken)) ∧
    (doRequest exState "GET" "/contacts/1" none true (fun _ => false)
        (.ok 401 "unauthorized") 100
        (.resp 200 "ok" (some exTokenResp)) (.ok 200 "notjson")).result =
      some .parseResponse := by
  decide

/-- Claim C1 (amended): if the first request returns 401 with auto-refresh
enabled and a non-empty refresh token and client credentials, and the token
refresh succeeds, then exactly one refresh is performed; provided the
refreshed access token is non-empty, the API request is repeated exactly once
with the new token, and a 2xx retry yields success, with the body deserialized
exactly when a result target was supplied, the body is non-empty, and it
parses; if the refreshed access token is empty, no second HTTP request is
issued and the call fails with the no-token error; no third API request is
ever made. -/
theorem doRequest_401_auto_refresh_retries_once
    (c : ClientState) (method path : String) (body : Option Json)
    (hasResult : Bool) (rp : String → Bool) (b1 : String) (now : Int)
    (raw : String) (tr : TokenResp) (net2 : NetOutcome)
    (htok : c.accessToken ≠ "") (hauto : c.autoRefreshOn401 = true)
    (hrt : c.refreshToken ≠ "") (hcid : c.clientID ≠ "") (hcs : c.clientSecret ≠ "") :
    let o := doRequest c method path body hasResult rp (.ok 401 b1) now
      (.resp 200 raw (some tr)) net2
    o.refreshAttempts = 1 ∧ o.refreshHTTP = 1 ∧ o.apiRequests ≤ 2 ∧
    (tr.access_token ≠ "" →
      o.apiRequests = 2 ∧
      o.requests = [
        { method := method, url := c.baseURL ++ path
          authorization := "Bearer " ++ c.accessToken
          accept := "application/json"
          contentType := if body.isSome then some "application/json" else none
          body := body },
        { method := method, url := c.baseURL ++ path
          authorization := "Bearer " ++ tr.access_token
          accept := "application/json"
          contentType := if body.isSome then some "application/json" else none
          body := body }] ∧
      (∀ s2 b2, net2 = .ok s2 b2 → 200 ≤ s2 → s2 < 300 →
        ((hasResult = true ∧ b2.length > 0 → rp b2 = true →
            o.result = none ∧ o.deserialized = true) ∧
         (¬(hasResult = true ∧ b2.length > 0) →
            o.result = none ∧ o.deserialized = false)))) ∧
    (tr.access_token = "" →
      o.apiRequests = 1 ∧ o.result = some (.execErr .noToken)) := by
  intro o
  by_cases htr : tr.access_token = ""
  · simp only [o]
    simp [doRequest, executeRequest, refreshTokenInternal, applyTokenResp,
      finishRequest, htok, hauto, hrt, hcid, hcs, htr]
  · have heq := doRequest_eq_of_401_refresh_ok c method path body hasResult rp
      b1 now raw tr net2 htok hauto hrt hcid hcs htr
    have hstate : (applyTokenResp c tr now).accessToken ≠ "" := htr
    refine ⟨by simp [o, heq], by simp [o, heq], by simp [o, heq], ?_, fun h => absurd h htr⟩
    intro _
    refine ⟨by simp [o, heq], by simp [o, heq], ?_⟩
    intro s2 b2 hnet2 h200 h300
    subst hnet2
    have hfin := finishRequest_2xx (applyTokenResp c tr now) method path body
      hasResult rp s2 b2 hstate h200 h300
    constructor
    · rintro ⟨hhr, hlen⟩ hrp
      subst hhr
      simp only [o, heq]
      simp [hfin, hlen, hrp]
    · intro hnbr
      simp only [o, heq]
      simp [hfin, hnbr]

/-- Claim C1, witness at concrete inputs: with a non-empty refreshed token the
retry happens once with the new bearer token and a 200 retry succeeds with the
body deserialized; with an empty refreshed token only one API request is ever
issued and the call fails with the no-token error. -/
theorem doRequest_401_auto_refresh_retries_once_witness :
    ((doRequest exState "GET" "/contacts/c1" none true (fun _ => true)
        (.ok 401 "unauthorized") 100 (.resp 200 "good" (some exTokenResp))
        (.ok 200 "body")).refreshAttempts = 1 ∧
      (doRequest exState "GET" "/contacts/c1" none true (fun _ => true)
        (.ok 401 "unauthorized") 100 (.resp 200 "good" (some exTokenResp))
        (.ok 200 "body")).apiRequests = 2 ∧
      (doRequest exState "GET" "/contacts/c1" none true (fun _ => true)
        (.ok 401 "unauthorized") 100 (.resp 200 "good" (some exTokenResp))
        (.ok 200 "body")).requests = [
        { method := "GET", url := exState.baseURL ++ "/contacts/c1"
          authorization := "Bearer " ++ exState.accessToken
          accept := "application/json"
          contentType := if (none : Option Json).isSome then some "application/json" else none
          body := none },
        { method := "GET", url := exState.baseURL ++ "/contacts/c1"
          authorization := "Bearer " ++ exTokenResp.access_token
          accept := "application/json"
          contentType := if (none : Option Json).isSome then some "application/json" else none
          body := none }] ∧
      (doRequest exState "GET" "/contacts/c1" none true (fun _ => true)
        (.ok 401 "unauthorized") 100 (.resp 200 "good" (some exTokenResp))
        (.ok 200 "body")).result = none ∧
      (doRequest exState "GET" "/contacts/c1" none true (fun _ => true)
        (.ok 401 "unauthorized") 100 (.resp 200 "good" (some exTokenResp))
        (.ok 200 "body")).deserialized = true) ∧
    ((doRequest exState "GET" "/contacts/c1" none true (fun _ => true)
        (.ok 401 "unauthorized") 100 (.resp 200 "empty" (some ⟨"", "", "", 0, ""⟩))
        (.ok 200 "body")).apiRequests = 1 ∧
      (doRequest exState "GET" "/contacts/c1" none true (fun _ => true)
        (.ok 401 "unauthorized") 100 (.resp 200 "empty" (some ⟨"", "", "", 0, ""⟩))
        (.ok 200 "body")).result = some (.execErr .noToken)) := by
  have h := doRequest_401_auto_refresh_retries_once exState "GET" "/contacts/c1" none
    true (fun _ => true) "unauthorized" 100 "good" exTokenResp (.ok 200 "body")
    (by decide) (by decide) (by decide) (by decide) (by decide)
  have h4 := h.2.2.2.1 (by decide)
  have hres := (h4.2.2 200 "body" rfl (by decide) (by decide)).1 ⟨rfl, by decide⟩ rfl
  have h0 := doRequest_401_auto_refresh_retries_once exState "GET" "/contacts/c1" none
    true (fun _ => true) "unauthorized" 100 "empty" ⟨"", "", "", 0, ""⟩ (.ok 200 "body")
    (by decide) (by decide) (by decide) (by decide) (by decide)
  exact ⟨⟨h.1, h4.1, h4.2.1, hres.1, hres.2⟩, h0.2.2.2.2 rfl⟩

/-- Claim C2, counterexample. The claim states that a failure reading the
response body is returned immediately with no token refresh and no retried
request, "including when the failure occurs while reading the body of a
response whose status is 401 and auto-refresh is enabled with valid refresh
credentials". In that very scenario the code enters the 401 branch (the status
code is 401 and the read error is ignored by the guard), refreshes the token,
retries, and — when the retry returns 200 — succeeds overall, so the read
failure is not returned at all: here one refresh and two API requests occur
and the result is success. -/
theorem read_failure_on_401_triggers_refresh :
    (doRequest exState "GET" "/contacts/1" none false (fun _ => true)
        (.readFail 401) 100 (.resp 200 "good" (some exTokenResp))
        (.ok 200 "")).refreshAttempts = 1 ∧
    (doRequest exState "GET" "/contacts/1" none false (fun _ => true)
        (.readFail 401) 100 (.resp 200 "good" (some exTokenResp))
        (.ok 200 "")).apiRequests = 2 ∧
    (doRequest exState "GET" "/contacts/1" none false (fun _ => true)
        (.readFail 401) 100 (.resp 200 "good" (some exTokenResp))
        (.ok 200 "")).result = none := by
  decide

/-- Claim C2 (amended): a connection-level failure of the first request (which
yields no status code) is always returned immediately as the request-failed
error, with no token refresh and no retried request; a failure reading the
response body is likewise returned immediately as the read-failed error with
no refresh and no retry, except when the response's status is 401 and
auto-refresh is enabled with a non-empty refresh token and client credentials,
in which case the code performs the refresh-and-retry path instead of
returning the read error. -/
theorem network_failure_returned_immediately
    (c : ClientState) (method path : String) (body : Option Json)
    (hasResult : Bool) (rp : String → Bool) (now : Int)
    (tokNet : TokenNet) (net2 : NetOutcome)
    (htok : c.accessToken ≠ "") :
    (doRequest c method path body hasResult rp .connectFail now tokNet net2 =
      { result := some (.execErr .requestFailed), deserialized := false
        state := c, apiRequests := 1, refreshHTTP := 0, refreshAttempts := 0
        callbacks := []
        requests := [
          { method := method, url := c.baseURL ++ path
            authorization := "Bearer " ++ c.accessToken
            accept := "application/json"
            contentType := if body.isSome then some "application/json" else none
            body := body }] }) ∧
    (∀ s : Nat,
      ¬(s = 401 ∧ c.autoRefreshOn401 = true ∧ c.refreshToken ≠ "" ∧
          c.clientID ≠ "" ∧ c.clientSecret ≠ "") →
      doRequest c method path body hasResult rp (.readFail s) now tokNet net2 =
      { result := some (.execErr .readFailed), deserialized := false
        state := c, apiRequests := 1, refreshHTTP := 0, refreshAttempts := 0
        callbacks := []
        requests := [
          { method := method, url := c.baseURL ++ path
            authorization := "Bearer " ++ c.accessToken
            accept := "application/json"
            contentType := if body.isSome then some "application/json" else none
            body := body }] }) := by
  constructor
  · simp [doRequest, executeRequest, finishRequest, htok]
  · intro s hno
    by_cases h401 : s = 401 ∧ c.autoRefreshOn401 = true
    · have hcred : ¬(c.refreshToken ≠ "" ∧ (c.clientID ≠ "" ∧ c.clientSecret ≠ "")) := by
        intro hcred
        exact hno ⟨h401.1, h401.2, hcred.1, hcred.2.1, hcred.2.2⟩
      simp [doRequest, executeRequest, finishRequest, htok, h401, hcred]
    · simp [doRequest, executeRequest, finishRequest, htok, h401]

/-- Claim C2, witness at a concrete input: a connection failure and a body-read
failure on a 500 response, with refresh fully possible, are both surfaced
untouched. -/
theorem network_failure_returned_immediately_witness :
    (doRequest exState "GET" "/x" none false (fun _ => true) .connectFail 100
        (.resp 200 "good" (some exTokenResp)) (.ok 200 "") =
      { result := some (.execErr .requestFailed), deserialized := false
        state := exState, apiRequests := 1, refreshHTTP := 0, refreshAttempts := 0
        callbacks := []
        requests := [
          { method := "GET", url := exState.baseURL ++ "/x"
            authorization := "Bearer " ++ exState.accessToken
            accept := "application/json"
            contentType := if (none : Option Json).isSome then some "application/json" else none
            body := none }] }) ∧
    doRequest exState "GET" "/x" none false (fun _ => true) (.readFail 500) 100
        (.resp 200 "good" (some exTokenResp)) (.ok 200 "") =
      { result := some (.execErr .readFailed), deserialized := false
        state := exState, apiRequests := 1, refreshHTTP := 0, refreshAttempts := 0
        callbacks := []
        requests := [
          { method := "GET", url := exState.baseURL ++ "/x"
            authorization := "Bearer " ++ exState.accessToken
            accept := "application/json"
            contentType := if (none : Option Json).isSome then some "application/json" else none
            body := none }] } := by
  have h := network_failure_returned_immediately exState "GET" "/x" none false
    (fun _ => true) 100 (.resp 200 "good" (some exTokenResp)) (.ok 200 "") (by decide)
  exact ⟨h.1, h.2 500 (by decide)⟩

/-- Claim C4: when the first response is 401 with auto-refresh eligible and
the token refresh fails, the returned error is the composite one carrying the
original 401 status, its raw body, and the refresh failure — rendered as
`"API request failed with status 401: <body> (token refresh failed: <refresh
error>)"` — and exactly one API request was issued (no retry), with no
callback invoked and the token state unchanged. -/
theorem refresh_failure_composite_error
    (c : ClientState) (method path : String) (body : Option Json)
    (hasResult : Bool) (rp : String → Bool) (b1 : String) (now : Int)
    (tokNet : TokenNet) (net2 : NetOutcome) (re : RefreshError)
    (htok : c.accessToken ≠ "") (hauto : c.autoRefreshOn401 = true)
    (hrt : c.refreshToken ≠ "") (hcid : c.clientID ≠ "") (hcs : c.clientSecret ≠ "")
    (hre : (refreshTokenInternal c c.refreshToken now tokNet).result = some re) :
    let o := doRequest c method path body hasResult rp (.ok 401 b1) now tokNet net2
    o.result = some (.refreshFailed 401 b1 re) ∧
    (o.result.map DoError.message) = some
      ("API request failed with status " ++ toString (401 : Nat) ++ ": " ++ b1 ++
        " (token refresh failed: " ++ re.message ++ ")") ∧
    o.apiRequests = 1 ∧ o.refreshAttempts = 1 ∧ o.callbacks = [] ∧ o.state = c := by
  intro o
  have hfail := refreshTokenInternal_failure c c.refreshToken now tokNet re hre
  rcases hro : refreshTokenInternal c c.refreshToken now tokNet with ⟨res, st, hi, cb⟩
  rw [hro] at hre hfail
  simp only at hre hfail
  refine ⟨?_, ?_, ?_, ?_, ?_, ?_⟩ <;>
    simp [o, doRequest, executeRequest, finishRequest, htok, hauto, hrt, hcid, hcs,
      hro, hre, hfail.1, hfail.2, DoError.message]

/-- Claim C4, witness at a concrete input: token endpoint answers 400. -/
theorem refresh_failure_composite_error_witness :
    let o := doRequest exState "GET" "/x" none false (fun _ => true) (.ok 401 "unauthorized")
      100 (.resp 400 "invalid_grant" none) .connectFail
    o.result = some (.refreshFailed 401 "unauthorized" (.badStatus 400 "invalid_grant")) ∧
    (o.result.map DoError.message) = some
      ("API request failed with status " ++ toString (401 : Nat) ++ ": " ++ "unauthorized" ++
        " (token refresh failed: " ++ (RefreshError.badStatus 400 "invalid_grant").message ++ ")") ∧
    o.apiRequests = 1 ∧ o.refreshAttempts = 1 ∧ o.callbacks = [] ∧ o.state = exState :=
  refresh_failure_composite_error exState "GET" "/x" none false (fun _ => true)
    "unauthorized" 100 (.resp 400 "invalid_grant" none) .connectFail
    (.badStatus 400 "invalid_grant") (by decide) (by decide) (by decide) (by decide)
    (by decide) (by decide)

/-- Claim C5: with an empty stored access token and no refresh possible, the
call fails with the no-access-token error — whose message is "no access token
available, please authorize first" — and issues zero HTTP requests of either
kind. -/
theorem empty_token_auth_error_no_requests
    (c : ClientState) (method path : String) (body : Option Json)
    (hasResult : Bool) (rp : String → Bool) (net1 : NetOutcome) (now : Int)
    (tokNet : TokenNet) (net2 : NetOutcome)
    (htok : c.accessToken = "")
    (hnoref : ¬(c.autoRefreshOn401 = true ∧ c.refreshToken ≠ "" ∧
        c.clientID ≠ "" ∧ c.clientSecret ≠ "")) :
    let o := doRequest c method path body hasResult rp net1 now tokNet net2
    o.result = some (.execErr .noToken) ∧
    (o.result.map DoError.message) = some "no access token available, please authorize first" ∧
    o.apiRequests = 0 ∧ o.refreshHTTP = 0 ∧ o.refreshAttempts = 0 ∧
    o.requests = [] ∧ o.state = c := by
  intro o
  refine ⟨?_, ?_, ?_, ?_, ?_, ?_, ?_⟩ <;>
    simp [o, doRequest, executeRequest, finishRequest, htok,
      DoError.message, ExecError.message]

/-- Claim C5, witness at a concrete input: empty token and auto-refresh off. -/
theorem empty_token_auth_error_no_requests_witness :
    let o := doRequest { exState with accessToken := "", autoRefreshOn401 := false }
      "GET" "/contacts/1" none true (fun _ => true) (.ok 200 "b") 100
      (.resp 200 "good" (some exTokenResp)) (.ok 200 "b")
    o.result = some (.execErr .noToken) ∧
    (o.result.map DoError.message) = some "no access token available, please authorize first" ∧
    o.apiRequests = 0 ∧ o.refreshHTTP = 0 ∧ o.refreshAttempts = 0 ∧
    o.requests = [] ∧
    o.state = { exState with accessToken := "", autoRefreshOn401 := false } :=
  empty_token_auth_error_no_requests
    { exState with accessToken := "", autoRefreshOn401 := false }
    "GET" "/contacts/1" none true (fun _ => true) (.ok 200 "b") 100
    (.resp 200 "good" (some exTokenResp)) (.ok 200 "b") (by decide) (by decide)

/-- Claim C6: a first response of 401 with auto-refresh disabled fails with
the API error carrying status 401 and the raw response body, after exactly one
HTTP request and no token refresh. -/
theorem unauthorized_with_auto_refresh_disabled
    (c : ClientState) (method path : String) (body : Option Json)
    (hasResult : Bool) (rp : String → Bool) (b1 : String) (now : Int)
    (tokNet : TokenNet) (net2 : NetOutcome)
    (htok : c.accessToken ≠ "") (hauto : c.autoRefreshOn401 = false) :
    doRequest c method path body hasResult rp (.ok 401 b1) now tokNet net2 =
      { result := some (.apiStatus 401 b1), deserialized := false
        state := c, apiRequests := 1, refreshHTTP := 0, refreshAttempts := 0
        callbacks := []
        requests := [
          { method := method, url := c.baseURL ++ path
            authorization := "Bearer " ++ c.accessToken
            accept := "application/json"
            contentType := if body.isSome then some "application/json" else none
            body := body }] } := by
  simp [doRequest, executeRequest, finishRequest, htok, hauto]

/-- Claim C6, witness at a concrete input. -/
theorem unauthorized_with_auto_refresh_disabled_witness :
    doRequest { exState with autoRefreshOn401 := false } "GET" "/x" none false
      (fun _ => true) (.ok 401 "unauthorized") 100
      (.resp 200 "good" (some exTokenResp)) (.ok 200 "") =
      { result := some (.apiStatus 401 "unauthorized"), deserialized := false
        state := { exState with autoRefreshOn401 := false }
        apiRequests := 1, refreshHTTP := 0, refreshAttempts := 0
        callbacks := []
        requests := [
          { method := "GET"
            url := { exState with autoRefreshOn401 := false }.baseURL ++ "/x"
            authorization := "Bearer " ++ { exState with autoRefreshOn401 := false }.accessToken
            accept := "application/json"
            contentType := if (none : Option Json).isSome then some "application/json" else none
            body := none }] } :=
  unauthorized_with_auto_refresh_disabled { exState with autoRefreshOn401 := false }
    "GET" "/x" none false (fun _ => true) "unauthorized" 100
    (.resp 200 "good" (some exTokenResp)) (.ok 200 "") (by decide) (by decide)

/-- Claim C10: an empty stored access token fails the call with the
no-access-token error and zero HTTP requests, with no refresh attempted — with
no hypothesis on the auto-refresh flag, the stored refresh token, or the
client credentials, so in particular even when auto-refresh is enabled and a
refresh token and full client credentials are present. -/
theorem empty_token_never_triggers_refresh
    (c : ClientState) (method path : String) (body : Option Json)
    (hasResult : Bool) (rp : String → Bool) (net1 : NetOutcome) (now : Int)
    (tokNet : TokenNet) (net2 : NetOutcome)
    (htok : c.accessToken = "") :
    let o := doRequest c method path body hasResult rp net1 now tokNet net2
    o.result = some (.execErr .noToken) ∧
    o.apiRequests = 0 ∧ o.refreshHTTP = 0 ∧ o.refreshAttempts = 0 ∧
    o.callbacks = [] ∧ o.requests = [] ∧ o.state = c := by
  intro o
  refine ⟨?_, ?_, ?_, ?_, ?_, ?_, ?_⟩ <;>
    simp [o, doRequest, executeRequest, finishRequest, htok]

/-- Claim C10, witness at a concrete input in which auto-refresh is enabled
and refresh token and client credentials are all present. -/
theorem empty_token_never_triggers_refresh_witness :
    let o := doRequest { exState with accessToken := "" } "GET" "/contacts/1" none
      true (fun _ => true) (.ok 401 "u") 100
      (.resp 200 "good" (some exTokenResp)) (.ok 200 "b")
    o.result = some (.execErr .noToken) ∧
    o.apiRequests = 0 ∧ o.refreshHTTP = 0 ∧ o.refreshAttempts = 0 ∧
    o.callbacks = [] ∧ o.requests = [] ∧ o.state = { exState with accessToken := "" } :=
  empty_token_never_triggers_refresh { exState with accessToken := "" } "GET"
    "/contacts/1" none true (fun _ => true) (.ok 401 "u") 100
    (.resp 200 "good" (some exTokenResp)) (.ok 200 "b") (by decide)

/-- Claim C3, counterexample. The claim states that after a successful refresh
the stored expiry corresponds to the response's `expires_in` "for every
response, including one whose expires_in is zero or negative", with no partial
update observable. Concretely: starting from expiry 5, a successful refresh at
time 100 whose response carries `expires_in = 0` overwrites both tokens but
leaves the stored expiry at 5 — not at `100 + 0` — so the triple is updated
only partially. -/
theorem refresh_with_nonpositive_expires_in_keeps_expiry :
    let ro := refreshTokenInternal exState "r1" 100
      (.resp 200 "good" (some ⟨"a2", "r2", "Bearer", 0, ""⟩))
    ro.result = none ∧ ro.state.accessToken = "a2" ∧ ro.state.refreshToken = "r2" ∧
    ro.state.tokenExpiry = 5 ∧ ro.state.tokenExpiry ≠ 100 + 0 := by
  decide

/-- Claim C3 (amended): a successful `refreshTokenInternal` or `fetchToken`
overwrites the access token and refresh token with the response values in a
single locked update, and sets the expiry to `now + expires_in` when
`expires_in` is positive; when `expires_in` is zero or negative the previous
expiry is retained (so the expiry component of the triple is, in that case,
deliberately not overwritten). -/
theorem successful_token_fetch_updates_state
    (c : ClientState) (rt : String) (now : Int) (raw : String) (tr : TokenResp)
    (hcid : c.clientID ≠ "") (hcs : c.clientSecret ≠ "") :
    ((refreshTokenInternal c rt now (.resp 200 raw (some tr))).result = none ∧
      (refreshTokenInternal c rt now (.resp 200 raw (some tr))).state =
        applyTokenResp c tr now) ∧
    ((fetchToken c now (.resp 200 raw (some tr))).result = none ∧
      (fetchToken c now (.resp 200 raw (some tr))).state = applyTokenResp c tr now) ∧
    (applyTokenResp c tr now).accessToken = tr.access_token ∧
    (applyTokenResp c tr now).refreshToken = tr.refresh_token ∧
    (0 < tr.expires_in → (applyTokenResp c tr now).tokenExpiry = now + tr.expires_in) ∧
    (tr.expires_in ≤ 0 → (applyTokenResp c tr now).tokenExpiry = c.tokenExpiry) ∧
    (applyTokenResp c tr now).clientID = c.clientID ∧
    (applyTokenResp c tr now).clientSecret = c.clientSecret := by
  refine ⟨⟨?_, ?_⟩, ⟨?_, ?_⟩, ?_, ?_, ?_, ?_, ?_, ?_⟩
  · simp [refreshTokenInternal, hcid, hcs]
  · simp [refreshTokenInternal, hcid, hcs]
  · simp [fetchToken]
  · simp [fetchToken]
  · simp [applyTokenResp]
  · simp [applyTokenResp]
  · intro h
    simp only [applyTokenResp]
    rw [if_pos h]
  · intro h
    simp only [applyTokenResp]
    rw [if_neg (by omega : ¬tr.expires_in > 0)]
  · simp [applyTokenResp]
  · simp [applyTokenResp]

/-- Claim C3, witness at concrete inputs: a successful refresh with a positive
`expires_in` updates the whole triple (expiry to `now + expires_in`), and one
with `expires_in = 0` keeps the previous expiry. -/
theorem successful_token_fetch_updates_state_witness :
    (refreshTokenInternal exState "r1" 100 (.resp 200 "good" (some exTokenResp))).result = none ∧
    (refreshTokenInternal exState "r1" 100 (.resp 200 "good" (some exTokenResp))).state =
      applyTokenResp exState exTokenResp 100 ∧
    (fetchToken exState 100 (.resp 200 "good" (some exTokenResp))).state =
      applyTokenResp exState exTokenResp 100 ∧
    (applyTokenResp exState exTokenResp 100).accessToken = exTokenResp.access_token ∧
    (applyTokenResp exState exTokenResp 100).refreshToken = exTokenResp.refresh_token ∧
    (applyTokenResp exState exTokenResp 100).tokenExpiry = 100 + exTokenResp.expires_in ∧
    (applyTokenResp exState (⟨"a2", "r2", "Bearer", 0, ""⟩ : TokenResp) 100).tokenExpiry =
      exState.tokenExpiry := by
  have h := successful_token_fetch_updates_state exState "r1" 100 "good" exTokenResp
    (by decide) (by decide)
  have h0 := successful_token_fetch_updates_state exState "r1" 100 "good"
    ⟨"a2", "r2", "Bearer", 0, ""⟩ (by decide) (by decide)
  exact ⟨h.1.1, h.1.2, h.2.1.2, h.2.2.1, h.2.2.2.1,
    h.2.2.2.2.1 (by decide), h0.2.2.2.2.2.1 (by decide)⟩

/-- Claim C7: after a successful automatic refresh the registered callback is
invoked exactly once, with the response's access token, refresh token, and
`expires_in`; when no callback is registered nothing is invoked; a failed
refresh invokes no callback; and the manual exchange operations
`AuthorizeWithCode` and `AuthorizeWithRefreshToken` (via `fetchToken`) never
invoke the callback. -/
theorem refresh_callback_invocations
    (c : ClientState) (rt code redirectURI : String) (now : Int) (raw : String)
    (tr : TokenResp) (net : TokenNet) (re : RefreshError)
    (hcid : c.clientID ≠ "") (hcs : c.clientSecret ≠ "") :
    (c.hasCallback = true →
      (refreshTokenInternal c rt now (.resp 200 raw (some tr))).callbacks =
        [(tr.access_token, tr.refresh_token, tr.expires_in)]) ∧
    (c.hasCallback = false →
      (refreshTokenInternal c rt now (.resp 200 raw (some tr))).callbacks = []) ∧
    ((refreshTokenInternal c rt now net).result = some re →
      (refreshTokenInternal c rt now net).callbacks = []) ∧
    (AuthorizeWithCode c code redirectURI now net).callbacks = [] ∧
    (AuthorizeWithRefreshToken c rt now net).callbacks = [] ∧
    (fetchToken c now net).callbacks = [] := by
  have hfetch : (fetchToken c now net).callbacks = [] := by
    unfold fetchToken
    cases net with
    | connectFail => simp
    | readFail => simp
    | resp s raw parsed =>
      by_cases hs : s ≠ 200
      · simp [hs]
      · cases parsed <;> simp [hs]
  refine ⟨?_, ?_, ?_, ?_, ?_, hfetch⟩
  · intro hcb
    simp [refreshTokenInternal, hcid, hcs, hcb]
  · intro hcb
    simp [refreshTokenInternal, hcid, hcs, hcb]
  · intro hre
    exact (refreshTokenInternal_failure c rt now net re hre).2
  · unfold AuthorizeWithCode
    by_cases hc : c.clientID = "" ∨ c.clientSecret = ""
    · simp [hc]
    · simp [hc, hfetch]
  · unfold AuthorizeWithRefreshToken
    by_cases hc : c.clientID = "" ∨ c.clientSecret = ""
    · simp [hc]
    · simp [hc, hfetch]

/-- Claim C7, witness at concrete inputs: the callback fires once with the new
tokens after a successful automatic refresh, does not fire when unregistered
or when the refresh fails, and never fires on the manual exchanges. -/
theorem refresh_callback_invocations_witness :
    (refreshTokenInternal exState "r1" 100 (.resp 200 "good" (some exTokenResp))).callbacks =
      [(exTokenResp.access_token, exTokenResp.refresh_token, exTokenResp.expires_in)] ∧
    (refreshTokenInternal { exState with hasCallback := false } "r1" 100
      (.resp 200 "good" (some exTokenResp))).callbacks = [] ∧
    (refreshTokenInternal exState "r1" 100 .connectFail).callbacks = [] ∧
    (AuthorizeWithCode exState "code1" "https://cb" 100 .connectFail).callbacks = [] ∧
    (AuthorizeWithRefreshToken exState "r1" 100 .connectFail).callbacks = [] ∧
    (fetchToken exState 100 .connectFail).callbacks = [] := by
  have h := refresh_callback_invocations exState "r1" "code1" "https://cb" 100 "good"
    exTokenResp .connectFail .fetchFailed (by decide) (by decide)
  have hno := refresh_callback_invocations { exState with hasCallback := false } "r1"
    "code1" "https://cb" 100 "good" exTokenResp .connectFail .fetchFailed
    (by decide) (by decide)
  exact ⟨h.1 rfl, hno.2.1 rfl, h.2.2.1 (by decide), h.2.2.2.1, h.2.2.2.2.1, h.2.2.2.2.2⟩

/-- Claim C9: every failure of `fetchToken`, `refreshTokenInternal`,
`AuthorizeWithCode`, or `AuthorizeWithRefreshToken` — missing credentials,
connection failure, read failure, non-200 token status, or unparseable
response, all of which are the possible `some`-results — leaves the whole
client state (in particular access token, refresh token, and expiry)
unchanged. -/
theorem failed_token_fetch_preserves_state
    (c : ClientState) (rt code redirectURI : String) (now : Int) (net : TokenNet)
    (re : RefreshError) :
    ((fetchToken c now net).result = some re → (fetchToken c now net).state = c) ∧
    ((refreshTokenInternal c rt now net).result = some re →
      (refreshTokenInternal c rt now net).state = c) ∧
    ((AuthorizeWithCode c code redirectURI now net).result = some re →
      (AuthorizeWithCode c code redirectURI now net).state = c) ∧
    ((AuthorizeWithRefreshToken c rt now net).result = some re →
      (AuthorizeWithRefreshToken c rt now net).state = c) := by
  have hAC : ∀ ro : RefreshOutcome,
      ro = (if c.clientID = "" ∨ c.clientSecret = "" then
        (⟨some .credsRequired, c, false, []⟩ : RefreshOutcome) else fetchToken c now net) →
      ro.result = some re → ro.state = c := by
    intro ro hro hres
    by_cases hc : c.clientID = "" ∨ c.clientSecret = ""
    · rw [if_pos hc] at hro
      rw [hro]
    · rw [if_neg hc] at hro
      rw [hro] at hres ⊢
      exact fetchToken_failure c now net re hres
  refine ⟨fetchToken_failure c now net re, ?_, ?_, ?_⟩
  · intro hres
    exact (refreshTokenInternal_failure c rt now net re hres).1
  · exact hAC (AuthorizeWithCode c code redirectURI now net) (by rw [AuthorizeWithCode])
  · exact hAC (AuthorizeWithRefreshToken c rt now net) (by rw [AuthorizeWithRefreshToken])

/-- Claim C9, witness at a concrete input: a 400 token-endpoint answer leaves
the state of all four operations untouched. -/
theorem failed_token_fetch_preserves_state_witness :
    (fetchToken exState 100 (.resp 400 "bad" none)).state = exState ∧
    (refreshTokenInternal exState "r1" 100 (.resp 400 "bad" none)).state = exState ∧
    (AuthorizeWithCode exState "code1" "https://cb" 100 (.resp 400 "bad" none)).state = exState ∧
    (AuthorizeWithRefreshToken exState "r1" 100 (.resp 400 "bad" none)).state = exState := by
  have h := failed_token_fetch_preserves_state exState "r1" "code1" "https://cb" 100
    (.resp 400 "bad" none) (.badStatus 400 "bad")
  exact ⟨h.1 (by decide), h.2.1 (by decide), h.2.2.1 (by decide), h.2.2.2 (by decide)⟩

/-- Membership in an `omitempty` string field block. -/
lemma pair_mem_strField (nm' nm s : String) (v : Json) :
    ((nm', v) ∈ strField nm s) ↔ s ≠ "" ∧ nm' = nm ∧ v = .str s := by
  unfold strField
  by_cases h : s = "" <;> simp [h]

/-- Membership in an `omitempty` string-slice field block. -/
lemma pair_mem_listStrField (nm' nm : String) (xs : List String) (v : Json) :
    ((nm', v) ∈ listStrField nm xs) ↔ xs ≠ [] ∧ nm' = nm ∧ v = .arr (xs.map .str) := by
  cases xs <;> simp [listStrField]

/-- Membership in the `customField` block. -/
lemma pair_mem_customFieldBlock (nm' : String) (v : Json) (cfs : List CustomField) :
    ((nm', v) ∈ customFieldBlock cfs) ↔
      cfs ≠ [] ∧ nm' = "customField" ∧ v = .arr (cfs.map CustomField.marshal) := by
  cases cfs <;> simp [customFieldBlock]

/-- Membership in the `attributionSource` block. -/
lemma pair_mem_attributionSourceBlock (nm' : String) (v : Json)
    (oa : Option AttributionSource) :
    ((nm', v) ∈ attributionSourceBlock oa) ↔
      ∃ a, oa = some a ∧ nm' = "attributionSource" ∧ v = a.marshal := by
  cases oa <;> simp [attributionSourceBlock]

/-- Claim C8: on every request `executeRequest` builds, the `Authorization`
header is exactly `"Bearer "` followed by the current access token, `Accept`
is `application/json`, and `Content-Type` is `application/json` exactly when a
body is supplied; with a body the request body is exactly the JSON
serialization of the supplied `CreateContactRequest`, and with no body none is
sent. The serialization contains, for each `omitempty` field, an entry exactly
when the value is non-zero (non-empty string, non-empty slice, non-nil
pointer) and with exactly the field's value, while `locationId` (no
`omitempty`) is always present. -/
theorem executeRequest_headers_and_marshalled_body
    (c : ClientState) (method path : String) (r : CreateContactRequest)
    (net : NetOutcome) (htok : c.accessToken ≠ "") :
    (executeRequest c method path (some r.marshal) net).req = some
      { method := method, url := c.baseURL ++ path
        authorization := "Bearer " ++ c.accessToken
        accept := "application/json"
        contentType := some "application/json"
        body := some r.marshal } ∧
    (executeRequest c method path none net).req = some
      { method := method, url := c.baseURL ++ path
        authorization := "Bearer " ++ c.accessToken
        accept := "application/json"
        contentType := none
        body := none } ∧
    r.marshal = .obj r.marshalFields ∧
    (∀ v, (("firstName", v) ∈ r.marshalFields ↔ r.FirstName ≠ "" ∧ v = .str r.FirstName)) ∧
    (∀ v, (("lastName", v) ∈ r.marshalFields ↔ r.LastName ≠ "" ∧ v = .str r.LastName)) ∧
    (∀ v, (("name", v) ∈ r.marshalFields ↔ r.Name ≠ "" ∧ v = .str r.Name)) ∧
    (∀ v, (("email", v) ∈ r.marshalFields ↔ r.Email ≠ "" ∧ v = .str r.Email)) ∧
    (∀ v, (("locationId", v) ∈ r.marshalFields ↔ v = .str r.LocationID)) ∧
    (∀ v, (("phone", v) ∈ r.marshalFields ↔ r.Phone ≠ "" ∧ v = .str r.Phone)) ∧
    (∀ v, (("address1", v) ∈ r.marshalFields ↔ r.Address1 ≠ "" ∧ v = .str r.Address1)) ∧
    (∀ v, (("city", v) ∈ r.marshalFields ↔ r.City ≠ "" ∧ v = .str r.City)) ∧
    (∀ v, (("state", v) ∈ r.marshalFields ↔ r.State ≠ "" ∧ v = .str r.State)) ∧
    (∀ v, (("postalCode", v) ∈ r.marshalFields ↔ r.PostalCode ≠ "" ∧ v = .str r.PostalCode)) ∧
    (∀ v, (("country", v) ∈ r.marshalFields ↔ r.Country ≠ "" ∧ v = .str r.Country)) ∧
    (∀ v, (("companyName", v) ∈ r.marshalFields ↔ r.CompanyName ≠ "" ∧ v = .str r.CompanyName)) ∧
    (∀ v, (("website", v) ∈ r.marshalFields ↔ r.Website ≠ "" ∧ v = .str r.Website)) ∧
    (∀ v, (("source", v) ∈ r.marshalFields ↔ r.Source ≠ "" ∧ v = .str r.Source)) ∧
    (∀ v, (("tags", v) ∈ r.marshalFields ↔ r.Tags ≠ [] ∧ v = .arr (r.Tags.map .str))) ∧
    (∀ v, (("customField", v) ∈ r.marshalFields ↔
      r.CustomFields ≠ [] ∧ v = .arr (r.CustomFields.map CustomField.marshal))) ∧
    (∀ v, (("attributionSource", v) ∈ r.marshalFields ↔
      ∃ a, r.AttributionSource = some a ∧ v = a.marshal)) := by
  refine ⟨?_, ?_, rfl, ?_, ?_, ?_, ?_, ?_, ?_, ?_, ?_, ?_, ?_, ?_, ?_, ?_, ?_, ?_, ?_, ?_⟩
  · exact (executeRequest_req_of_token c method path (some r.marshal) net htok).2
  · exact (executeRequest_req_of_token c method path none net htok).2
  all_goals
    intro v
    simp [CreateContactRequest.marshalFields, List.mem_append, pair_mem_strField,
      pair_mem_listStrField, pair_mem_customFieldBlock, pair_mem_attributionSourceBlock,
      and_assoc]

/-- Claim C8, witness at a concrete input: a request with only first name and
location id set marshals to exactly those two entries. -/
theorem executeRequest_headers_and_marshalled_body_witness :
    ((executeRequest exState "POST" "/contacts/"
        (some (CreateContactRequest.marshal
          ⟨"Jane", "", "", "", "loc1", "", "", "", "", "", "", "", "", "", [], [], none⟩))
        (.ok 200 "ok")).req = some
      { method := "POST", url := exState.baseURL ++ "/contacts/"
        authorization := "Bearer " ++ exState.accessToken
        accept := "application/json"
        contentType := some "application/json"
        body := some (CreateContactRequest.marshal
          ⟨"Jane", "", "", "", "loc1", "", "", "", "", "", "", "", "", "", [], [], none⟩) } ∧
    (executeRequest exState "POST" "/contacts/" none (.ok 200 "ok")).req = some
      { method := "POST", url := exState.baseURL ++ "/contacts/"
        authorization := "Bearer " ++ exState.accessToken
        accept := "application/json"
        contentType := none
        body := none } ∧
    CreateContactRequest.marshal
        ⟨"Jane", "", "", "", "loc1", "", "", "", "", "", "", "", "", "", [], [], none⟩ =
      .obj (CreateContactRequest.marshalFields
        ⟨"Jane", "", "", "", "loc1", "", "", "", "", "", "", "", "", "", [], [], none⟩) ∧
    (∀ v, (("firstName", v) ∈ CreateContactRequest.marshalFields
        ⟨"Jane", "", "", "", "loc1", "", "", "", "", "", "", "", "", "", [], [], none⟩ ↔
      ("Jane" : String) ≠ "" ∧ v = .str "Jane")) ∧
    (∀ v, (("lastName", v) ∈ CreateContactRequest.marshalFields
        ⟨"Jane", "", "", "", "loc1", "", "", "", "", "", "", "", "", "", [], [], none⟩ ↔
      ("" : String) ≠ "" ∧ v = .str "")) ∧
    (∀ v, (("name", v) ∈ CreateContactRequest.marshalFields
        ⟨"Jane", "", "", "", "loc1", "", "", "", "", "", "", "", "", "", [], [], none⟩ ↔
      ("" : String) ≠ "" ∧ v = .str "")) ∧
    (∀ v, (("email", v) ∈ CreateContactRequest.marshalFields
        ⟨"Jane", "", "", "", "loc1", "", "", "", "", "", "", "", "", "", [], [], none⟩ ↔
      ("" : String) ≠ "" ∧ v = .str "")) ∧
    (∀ v, (("locationId", v) ∈ CreateContactRequest.marshalFields
        ⟨"Jane", "", "", "", "loc1", "", "", "", "", "", "", "", "", "", [], [], none⟩ ↔
      v = .str "loc1")) ∧
    (∀ v, (("phone", v) ∈ CreateContactRequest.marshalFields
        ⟨"Jane", "", "", "", "loc1", "", "", "", "", "", "", "", "", "", [], [], none⟩ ↔
      ("" : String) ≠ "" ∧ v = .str "")) ∧
    (∀ v, (("address1", v) ∈ CreateContactRequest.marshalFields
        ⟨"Jane", "", "", "", "loc1", "", "", "", "", "", "", "", "", "", [], [], none⟩ ↔
      ("" : String) ≠ "" ∧ v = .str "")) ∧
    (∀ v, (("city", v) ∈ CreateContactRequest.marshalFields
        ⟨"Jane", "", "", "", "loc1", "", "", "", "", "", "", "", "", "", [], [], none⟩ ↔
      ("" : String) ≠ "" ∧ v = .str "")) ∧
    (∀ v, (("state", v) ∈ CreateContactRequest.marshalFields
        ⟨"Jane", "", "", "", "loc1", "", "", "", "", "", "", "", "", "", [], [], none⟩ ↔
      ("" : String) ≠ "" ∧ v = .str "")) ∧
    (∀ v, (("postalCode", v) ∈ CreateContactRequest.marshalFields
        ⟨"Jane", "", "", "", "loc1", "", "", "", "", "", "", "", "", "", [], [], none⟩ ↔
      ("" : String) ≠ "" ∧ v = .str "")) ∧
    (∀ v, (("country", v) ∈ CreateContactRequest.marshalFields
        ⟨"Jane", "", "", "", "loc1", "", "", "", "", "", "", "", "", "", [], [], none⟩ ↔
      ("" : String) ≠ "" ∧ v = .str "")) ∧
    (∀ v, (("companyName", v) ∈ CreateContactRequest.marshalFields
        ⟨"Jane", "", "", "", "loc1", "", "", "", "", "", "", "", "", "", [], [], none⟩ ↔
      ("" : String) ≠ "" ∧ v = .str "")) ∧
    (∀ v, (("website", v) ∈ CreateContactRequest.marshalFields
        ⟨"Jane", "", "", "", "loc1", "", "", "", "", "", "", "", "", "", [], [], none⟩ ↔
      ("" : String) ≠ "" ∧ v = .str "")) ∧
    (∀ v, (("source", v) ∈ CreateContactRequest.marshalFields
        ⟨"Jane", "", "", "", "loc1", "", "", "", "", "", "", "", "", "", [], [], none⟩ ↔
      ("" : String) ≠ "" ∧ v = .str "")) ∧
    (∀ v, (("tags", v) ∈ CreateContactRequest.marshalFields
        ⟨"Jane", "", "", "", "loc1", "", "", "", "", "", "", "", "", "", [], [], none⟩ ↔
      ([] : List String) ≠ [] ∧ v = .arr (([] : List String).map .str))) ∧
    (∀ v, (("customField", v) ∈ CreateContactRequest.marshalFields
        ⟨"Jane", "", "", "", "loc1", "", "", "", "", "", "", "", "", "", [], [], none⟩ ↔
      ([] : List CustomField) ≠ [] ∧
        v = .arr (([] : List CustomField).map CustomField.marshal))) ∧
    (∀ v, (("attributionSource", v) ∈ CreateContactRequest.marshalFields
        ⟨"Jane", "", "", "", "loc1", "", "", "", "", "", "", "", "", "", [], [], none⟩ ↔
      ∃ a, (none : Option AttributionSource) = some a ∧ v = a.marshal))) ∧
    CreateContactRequest.marshalFields
        ⟨"Jane", "", "", "", "loc1", "", "", "", "", "", "", "", "", "", [], [], none⟩ =
      [("firstName", .str "Jane"), ("locationId", .str "loc1")] :=
  ⟨executeRequest_headers_and_marshalled_body exState "POST" "/contacts/"
      ⟨"Jane", "", "", "", "loc1", "", "", "", "", "", "", "", "", "", [], [], none⟩
      (.ok 200 "ok") (by decide),
    by rfl⟩

end GoHighLevel
